import Mathlib


/-!
Shallow embedding of the simulation core of the Flappy Bird clone found in
src/src/main.rs (Rust, bevy 0.15).  Floating point quantities are modelled
as rationals: all constants in the program and in the concrete inputs used
below are exactly representable in f32 and the arithmetic performed on them
at those inputs is exact, so the rational model agrees with the f32
computation there.  Units and systems are modelled as plain functions on an
explicit world state; bevy queries become filters over the entity list.
-/

/-- Planar vector of coordinates, modelling bevy Vec2 and the x, y part of
a Transform translation.  The z coordinate is presentation depth only: the
simulation systems read positions through truncate() or the y field, so z
is dropped from the model. -/
structure Vec2 where
  x : ℚ
  y : ℚ
deriving DecidableEq

/-- Velocity component (main.rs lines 20 to 24). -/
structure Velocity where
  dx : ℚ
  dy : ℚ
deriving DecidableEq

/-- Collider component: half extents of an axis aligned box centered on the
entity position (main.rs lines 38 to 41). -/
structure Collider where
  half_size : Vec2
deriving DecidableEq

/-- Scoreable component (main.rs lines 43 to 46). -/
structure Scoreable where
  passed : Bool
deriving DecidableEq

/-- The AppState states enum of main.rs lines 12 to 18: Menu is the idle
menu phase, Playing the active phase, GameOver the terminated phase. -/
inductive AppState where
  | Menu
  | Playing
  | GameOver
deriving DecidableEq

/-- An entity together with its optional components.  The marker
components Player, Pipe and ScoreText of main.rs become Boolean flags;
LifeTime(f32) becomes an optional rational. -/
structure Entity where
  id : Nat := 0
  isPlayer : Bool := false
  isPipe : Bool := false
  isScoreText : Bool := false
  transform : Option Vec2 := none
  velocity : Option Velocity := none
  collider : Option Collider := none
  scoreable : Option Scoreable := none
  lifeTime : Option ℚ := none
deriving DecidableEq

/-- The gravity resource value inserted in main, line 642:
insert_resource(Gravity(-350.0)). -/
def mainGravity : ℚ := -350

/-- The flap impulse written by player_input_system, line 89:
vel.dy = 150.0. -/
def flapSpeed : ℚ := 150

/-- World state: the entity store plus the process wide resources Score,
Gravity and the pending NextState request. -/
structure World where
  entities : List Entity := []
  score : ℤ := 0
  gravity : ℚ := mainGravity
  nextState : Option AppState := none
  nextId : Nat := 0
deriving DecidableEq

/-- move_system (main.rs lines 74 to 79): for every entity with Transform
and Velocity, translation += velocity * dt. -/
def moveSystem (dt : ℚ) (w : World) : World :=
  { w with entities := w.entities.map (fun e =>
      match e.transform, e.velocity with
      | some t, some v =>
          { e with transform := some ⟨t.x + v.dx * dt, t.y + v.dy * dt⟩ }
      | _, _ => e) }

/-- player_input_system (main.rs lines 83 to 92): when the flap key edge
fired this tick, every entity with Velocity and the Player marker gets
vel.dy = 150.0, overwriting the previous value.  The edge triggered
just_pressed test is modelled by the Boolean argument. -/
def playerInputSystem (flapPressed : Bool) (w : World) : World :=
  if flapPressed then
    { w with entities := w.entities.map (fun e =>
        if e.isPlayer then
          match e.velocity with
          | some v => { e with velocity := some { v with dy := flapSpeed } }
          | none => e
        else e) }
  else w

/-- gravity_system (main.rs lines 256 to 265): for every Player entity
with Velocity, velocity.dy += gravity * delta. -/
def gravitySystem (dt : ℚ) (w : World) : World :=
  { w with entities := w.entities.map (fun e =>
      if e.isPlayer then
        match e.velocity with
        | some v => { e with velocity := some { v with dy := v.dy + w.gravity * dt } }
        | none => e
      else e) }

/-- lifetime_system (main.rs lines 95 to 106): every entity with a
LifeTime has it decremented by dt, and is despawned when the result is at
most zero.  The despawn goes through Commands, so it takes effect at the
end of the system pass, modelled by the filter after the map. -/
def lifetimeSystem (dt : ℚ) (w : World) : World :=
  { w with entities :=
      (w.entities.map (fun e =>
        match e.lifeTime with
        | some l => { e with lifeTime := some (l - dt) }
        | none => e)).filter (fun e =>
        match e.lifeTime with
        | some l => decide (0 < l)
        | none => true) }

/-- spawn_pipes (main.rs lines 109 to 163): creates one pipe pair at
x = 500.  gap = 100, pipe_speed = -100, pipe_size = (50, 600);
top_pipe_y = center_y + gap / 2 + pipe_size.y / 2 and
bottom_pipe_y = center_y - gap / 2 - pipe_size.y / 2; both pipes carry
Collider with half_size = pipe_size / 2 - 5, the Pipe marker, LifeTime 10
and the scroll velocity (-100, 0); only the top pipe carries
Scoreable { passed: false }.  The random gap center drawn from
rng.gen_range(-130.0..=130.0) is passed in as the argument center_y. -/
def spawnPipes (center_y : ℚ) (w : World) : World :=
  let gap : ℚ := 100
  let pipe_speed : ℚ := -100
  let pipe_size : Vec2 := ⟨50, 600⟩
  let top_pipe_y := center_y + gap / 2 + pipe_size.y / 2
  let bottom_pipe_y := center_y - gap / 2 - pipe_size.y / 2
  let half : Vec2 := ⟨pipe_size.x / 2 - 5, pipe_size.y / 2 - 5⟩
  let topPipe : Entity :=
    { id := w.nextId, isPipe := true,
      transform := some ⟨500, top_pipe_y⟩,
      velocity := some ⟨pipe_speed, 0⟩,
      collider := some ⟨half⟩,
      scoreable := some ⟨false⟩,
      lifeTime := some 10 }
  let bottomPipe : Entity :=
    { id := w.nextId + 1, isPipe := true,
      transform := some ⟨500, bottom_pipe_y⟩,
      velocity := some ⟨pipe_speed, 0⟩,
      collider := some ⟨half⟩,
      lifeTime := some 10 }
  { w with entities := w.entities ++ [topPipe, bottomPipe],
           nextId := w.nextId + 2 }

/-- The repeating timer state used by pipe_spawn_system through
Local(Timer).  Bevy stores elapsed and duration; only the Repeating mode
is exercised after the lazy initialization. -/
structure Timer where
  elapsed : ℚ
  duration : ℚ
deriving DecidableEq

/-- The default value of Local(Timer): Timer::default() has zero duration
and zero elapsed time. -/
def Timer.localDefault : Timer := ⟨0, 0⟩

/-- Bevy Timer::tick for a repeating timer (bevy_time 0.15): the elapsed
time advances by dt; when it reaches the duration, the number of whole
periods completed this tick is recorded and the elapsed time wraps to the
remainder.  Returns the new timer and times_finished_this_tick; the
just_finished() test of the caller is times_finished_this_tick > 0. -/
def Timer.tickRepeating (t : Timer) (dt : ℚ) : Timer × Nat :=
  let el := t.elapsed + dt
  if t.duration ≤ 0 then ({ t with elapsed := el }, 0)
  else if el < t.duration then ({ t with elapsed := el }, 0)
  else
    let times : Nat := (Int.floor (el / t.duration)).toNat
    ({ t with elapsed := el - times * t.duration }, times)

/-- The lazy initialization at the top of pipe_spawn_system (main.rs lines
171 to 173): if the local timer still has zero duration it is replaced by
Timer::from_seconds(2.0, TimerMode::Repeating). -/
def pipeSpawnTimerInit (t : Timer) : Timer :=
  if t.duration == 0 then ⟨0, 2⟩ else t

/-- pipe_spawn_system (main.rs lines 165 to 178): lazily initialize the
local timer, tick it by dt, and call spawn_pipes exactly once when
just_finished() holds, regardless of how many periods completed. -/
def pipeSpawnSystem (center_y : ℚ) (dt : ℚ) (t : Timer) (w : World) :
    Timer × World :=
  let t0 := pipeSpawnTimerInit t
  let r := t0.tickRepeating dt
  if 0 < r.2 then (r.1, spawnPipes center_y w) else (r.1, w)

/-- The player query of score_system (main.rs line 182):
Query of Transform with the Player marker, taken through get_single, which
succeeds exactly when one matching entity exists. -/
def getSinglePlayerTransform (w : World) : Option Vec2 :=
  match w.entities.filter (fun e => e.isPlayer && e.transform.isSome) with
  | [e] => e.transform
  | _ => none

/-- The loop body of score_system applied along the entity list: each Pipe
entity with Transform and Scoreable whose flag is still false and whose x
is strictly below the player x gets passed set to true while the score
increment is threaded through (main.rs lines 189 to 194). -/
def scoreStep (px : ℚ) : List Entity → List Entity × ℤ
  | [] => ([], 0)
  | e :: rest =>
    let r := scoreStep px rest
    if e.isPipe then
      match e.transform, e.scoreable with
      | some t, some sc =>
        if !sc.passed && decide (px > t.x) then
          ({ e with scoreable := some ⟨true⟩ } :: r.1, r.2 + 1)
        else (e :: r.1, r.2)
      | _, _ => (e :: r.1, r.2)
    else (e :: r.1, r.2)

/-- score_system (main.rs lines 180 to 195): a no-op unless exactly one
player with a Transform exists; otherwise runs the scoring loop and adds
the accumulated increment to the Score resource. -/
def scoreSystem (w : World) : World :=
  match getSinglePlayerTransform w with
  | none => w
  | some pt =>
    let r := scoreStep pt.x w.entities
    { w with entities := r.1, score := w.score + r.2 }

/-- The per entity effect of one scoring pass, used to characterize
scoreStep: the flag of a qualifying pipe flips to true, everything else is
untouched. -/
def passUpdate (px : ℚ) (e : Entity) : Entity :=
  if e.isPipe then
    match e.transform, e.scoreable with
    | some t, some sc =>
      if !sc.passed && decide (px > t.x) then { e with scoreable := some ⟨true⟩ }
      else e
    | _, _ => e
  else e

/-- Whether a scoring pass at player position px increments the score for
entity e: e is a pipe with Transform and a Scoreable flag still false and
strictly to the left of the player. -/
def newlyPassed (px : ℚ) (e : Entity) : Bool :=
  e.isPipe &&
    match e.transform, e.scoreable with
    | some t, some sc => !sc.passed && decide (px > t.x)
    | _, _ => false

/-- The bevy 0.15 Aabb2d intersection test used by collision_system:
Aabb2d::new(center, half) has min = center - half and max = center + half,
and intersects checks min1 <= max2 and max1 >= min2 on both axes, with
NON strict comparisons (bevy_math bounding/bounded2d, IntersectsVolume for
Aabb2d uses <= and >=). -/
def aabbIntersects (ac ah bc bh : Vec2) : Bool :=
  decide (ac.x - ah.x ≤ bc.x + bh.x) && decide (ac.x + ah.x ≥ bc.x - bh.x) &&
  decide (ac.y - ah.y ≤ bc.y + bh.y) && decide (ac.y + ah.y ≥ bc.y - bh.y)

/-- Whether the pipe query of collision_system yields entity e and its box
intersects the player box: e carries the Pipe marker and a Transform (the
query) and a Collider (looked up, continue on failure). -/
def pipeHit (pc ph : Vec2) (e : Entity) : Bool :=
  e.isPipe &&
    match e.transform, e.collider with
    | some t, some c => aabbIntersects pc ph t c.half_size
    | _, _ => false

/-- The pipe loop of collision_system (main.rs lines 217 to 231): walk the
entity list; entities outside the query or without a Collider are skipped;
the first intersecting pipe box returns immediately.  The second result
component counts how many AABB tests were executed, so the early return is
observable. -/
def collisionScan (pc ph : Vec2) : List Entity → Bool × Nat
  | [] => (false, 0)
  | e :: rest =>
    match e.isPipe, e.transform, e.collider with
    | true, some t, some c =>
      if aabbIntersects pc ph t c.half_size then (true, 1)
      else
        let r := collisionScan pc ph rest
        (r.1, r.2 + 1)
    | _, _, _ => collisionScan pc ph rest

/-- collision_system (main.rs lines 198 to 232): the player query asks for
Transform with the Player marker and without the Pipe marker, through
get_single; its Collider is then looked up, returning on failure.  If any
pipe box intersects the player box, NextState is set to GameOver. -/
def collisionSystem (w : World) : World :=
  match w.entities.filter (fun e => e.isPlayer && !e.isPipe && e.transform.isSome) with
  | [p] =>
    match p.transform, p.collider with
    | some pt, some pcol =>
      if (collisionScan pt pcol.half_size w.entities).1 then
        { w with nextState := some AppState.GameOver }
      else w
    | _, _ => w
  | _ => w

/-- boundary_collision_system (main.rs lines 234 to 254): the player query
asks for Transform and Collider with the Player marker through get_single;
with top_boundary = 300 and bottom_boundary = -300, a transition to
GameOver is requested when the top of the player box strictly exceeds the
top boundary or the bottom of the box is strictly below the bottom
boundary. -/
def boundaryCollisionSystem (w : World) : World :=
  match w.entities.filter (fun e => e.isPlayer && e.transform.isSome && e.collider.isSome) with
  | [p] =>
    match p.transform, p.collider with
    | some t, some c =>
      let top_boundary : ℚ := 300
      let bottom_boundary : ℚ := -300
      let player_top := t.y + c.half_size.y
      let player_bottom := t.y - c.half_size.y
      if decide (player_top > top_boundary) || decide (player_bottom < bottom_boundary) then
        { w with nextState := some AppState.GameOver }
      else w
    | _, _ => w
  | _ => w

/-- The fresh ScoreText entity spawned by restart_game at (0, 250). -/
def restartScoreTextEntity (n : Nat) : Entity :=
  { id := n, isScoreText := true, transform := some ⟨0, 250⟩ }

/-- The fresh background sprite entity spawned by restart_game: only a
Transform, no simulation components. -/
def restartBackgroundEntity (n : Nat) : Entity :=
  { id := n, transform := some ⟨0, 0⟩ }

/-- The fresh player entity spawned by restart_game (main.rs lines 571 to
582): Player marker, Velocity (0, 0), Collider half_size (16, 16),
Transform at the origin. -/
def restartPlayerEntity (n : Nat) : Entity :=
  { id := n, isPlayer := true,
    transform := some ⟨0, 0⟩,
    velocity := some ⟨0, 0⟩,
    collider := some ⟨⟨16, 16⟩⟩ }

/-- restart_game (main.rs lines 538 to 583): despawn every entity carrying
Player, Pipe or ScoreText, reset the Score resource to 0, then spawn a
fresh score text, a background sprite and a fresh player at the origin
with zero velocity and the standard (16, 16) collider. -/
def restartGame (w : World) : World :=
  { w with
    entities :=
      w.entities.filter (fun e => !(e.isPlayer || e.isPipe || e.isScoreText)) ++
        [restartScoreTextEntity w.nextId,
         restartBackgroundEntity (w.nextId + 1),
         restartPlayerEntity (w.nextId + 2)],
    score := 0,
    nextId := w.nextId + 3 }

/-- setup (main.rs lines 586 to 625), run once at Startup: spawns the
camera, a score text at (0, 250), the background, and a player at the
origin with zero velocity and the (16, 16) collider. -/
def setup (w : World) : World :=
  { w with
    entities := w.entities ++
      [{ id := w.nextId },
       { id := w.nextId + 1, isScoreText := true, transform := some ⟨0, 250⟩ },
       { id := w.nextId + 2, transform := some ⟨0, 0⟩ },
       { id := w.nextId + 3, isPlayer := true,
         transform := some ⟨0, 0⟩,
         velocity := some ⟨0, 0⟩,
         collider := some ⟨⟨16, 16⟩⟩ }],
    nextId := w.nextId + 4 }

/-- The world at app construction: empty entity store, Score(0) and
Gravity(-350.0) inserted by main (lines 642 to 643). -/
def initialWorld : World := {}

/-- The world after the Startup schedule ran setup (the menu UI spawned by
setup_menu carries no simulation components and is outside the core
model). -/
def startupWorld : World := setup initialWorld

/-- The OnEnter hooks registered in main: line 672 registers restart_game
on OnEnter(AppState::Playing) with no condition on the source state, so it
runs on every transition into Playing, whether from Menu or from GameOver.
The OnEnter(GameOver) hook only spawns UI, outside the core model. -/
def enterState (_source target : AppState) (w : World) : World :=
  match target with
  | AppState.Playing => restartGame w
  | _ => w

/-- Identifiers for the systems registered in main. -/
inductive SystemId where
  | moveSystem
  | gravitySystem
  | collisionSystem
  | playerInputSystem
  | lifetimeSystem
  | pipeSpawnSystem
  | boundaryCollisionSystem
  | scoreSystem
  | updateScoreDisplay
  | despawnMenu
  | despawnGameOverUI
deriving DecidableEq

/-- The systems added to the Update schedule under
run_if(in_state(AppState::Playing)) in main, lines 646 to 662, in the
textual order of the tuple. -/
def playingUpdateSystems : List SystemId :=
  [SystemId.moveSystem, SystemId.gravitySystem, SystemId.collisionSystem,
   SystemId.playerInputSystem, SystemId.lifetimeSystem,
   SystemId.pipeSpawnSystem, SystemId.boundaryCollisionSystem,
   SystemId.scoreSystem, SystemId.updateScoreDisplay,
   SystemId.despawnMenu, SystemId.despawnGameOverUI]

/-- The ordering constraints registered for those systems: the tuple in
main is not chained and no before or after edges are declared anywhere,
so the list is empty and the bevy scheduler may run the systems of one
tick in any order. -/
def playingOrderingConstraints : List (SystemId × SystemId) := []

/-- Index of a system inside a schedule. -/
def sysIdx (x : SystemId) (s : List SystemId) : Nat :=
  s.findIdx (fun y => decide (y = x))

/-- A list of systems is an execution order the bevy scheduler may choose
for one Update tick while in Playing: it runs exactly the registered
systems, in any order satisfying the registered ordering constraints. -/
def allowedPlayingSchedule (s : List SystemId) : Prop :=
  s.Perm playingUpdateSystems ∧
    ∀ c ∈ playingOrderingConstraints, sysIdx c.1 s < sysIdx c.2 s

/-- The overlap predicate exactly as the spec words it, with STRICT
comparisons: written only to be compared against the behaviour of the
code. -/
def specStrictOverlap (ac ah bc bh : Vec2) : Bool :=
  decide (|ac.x - bc.x| < ah.x + bh.x) && decide (|ac.y - bc.y| < ah.y + bh.y)

/-- A world holding one player at the origin with the standard (16, 16)
collider and one pipe at (obsX, 0) with collider half extents (20, 300),
the configuration of the collision examples in the spec. -/
def collisionWorld (obsX : ℚ) : World :=
  { entities :=
      [{ id := 0, isPlayer := true, transform := some ⟨0, 0⟩,
         collider := some ⟨⟨16, 16⟩⟩ },
       { id := 1, isPipe := true, transform := some ⟨obsX, 0⟩,
         collider := some ⟨⟨20, 300⟩⟩ }],
    nextId := 2 }

/-- A world holding only a player at height y with the standard collider,
the configuration of the boundary examples in the spec. -/
def boundsWorld (y : ℚ) : World :=
  { entities :=
      [{ id := 0, isPlayer := true, transform := some ⟨0, y⟩,
         collider := some ⟨⟨16, 16⟩⟩ }],
    nextId := 1 }

/-- A lone pipe entity carrying only a LifeTime, for the lifetime
claims. -/
def lifeEntity (l : ℚ) : Entity :=
  { id := 0, isPipe := true, lifeTime := some l }

/-- A world holding exactly the lone lifetime entity. -/
def lifeWorld (l : ℚ) : World :=
  { entities := [lifeEntity l], nextId := 1 }

/-- Iterated lifetime_system over a sequence of tick deltas. -/
def runLifetime (dts : List ℚ) (w : World) : World :=
  dts.foldl (fun w dt => lifetimeSystem dt w) w

/-- A world with a single player at the origin and one Scoreable pipe at
x = -10, the scoring example of the spec. -/
def scoreWorld : World :=
  { entities :=
      [{ id := 0, isPlayer := true, transform := some ⟨0, 0⟩ },
       { id := 1, isPipe := true, transform := some ⟨-10, 0⟩,
         scoreable := some ⟨false⟩ }],
    nextId := 2 }

/-- A schedule for the Playing Update systems in which scoring runs before
position integration: the registered tuple with moveSystem and scoreSystem
exchanged. -/
def swappedSchedule : List SystemId :=
  [SystemId.scoreSystem, SystemId.gravitySystem, SystemId.collisionSystem,
   SystemId.playerInputSystem, SystemId.lifetimeSystem,
   SystemId.pipeSpawnSystem, SystemId.boundaryCollisionSystem,
   SystemId.moveSystem, SystemId.updateScoreDisplay,
   SystemId.despawnMenu, SystemId.despawnGameOverUI]


/-- The player entity spawned by setup inside startupWorld: ids run from 0
for the camera, so the player receives id 3. -/
def setupPlayerEntity : Entity :=
  { id := 3, isPlayer := true, transform := some ⟨0, 0⟩,
    velocity := some ⟨0, 0⟩, collider := some ⟨⟨16, 16⟩⟩ }

/-- C1 counterexample: with the actor box centered at the origin with half
extents (16, 16) and an obstacle box centered at (36, 0) with half extents
(20, 300), the boxes touch exactly on the x axis; the code detects a
collision and requests the GameOver transition, while the strict overlap
test written in the claim is false there, so collision is not detected
exactly when the strict test holds. -/
theorem claim1_counterexample :
    (collisionSystem (collisionWorld 36)).nextState = some AppState.GameOver ∧
    specStrictOverlap ⟨0, 0⟩ ⟨16, 16⟩ ⟨36, 0⟩ ⟨20, 300⟩ = false := by
  constructor
  · norm_num [collisionSystem, collisionWorld, collisionScan, aabbIntersects]
  · norm_num [specStrictOverlap]

/-- C1 (amended): a collision between the actor box and an obstacle box is
detected exactly when the boxes overlap on both axes per the NON strict
test abs (ax - bx) ≤ ahw + bhw and abs (ay - by) ≤ ahh + bhh; the obstacle
scan detects a collision exactly when some obstacle in the query
intersects, and stops at the first detected collision without examining
any later obstacle; the actor box centered at (0, 0) with half extents
(16, 16) against the obstacle box centered at (10, 0) with half extents
(20, 300) triggers the GameOver request, and against the same box centered
at (50, 0) it does not. -/
theorem claim1_collision :
    (∀ ac ah bc bh : Vec2, aabbIntersects ac ah bc bh = true ↔
        (|ac.x - bc.x| ≤ ah.x + bh.x ∧ |ac.y - bc.y| ≤ ah.y + bh.y)) ∧
    (∀ pc ph : Vec2, ∀ es : List Entity,
        (collisionScan pc ph es).1 = es.any (pipeHit pc ph)) ∧
    (∀ pc ph : Vec2, ∀ es tail : List Entity, (collisionScan pc ph es).1 = true →
        collisionScan pc ph (es ++ tail) = collisionScan pc ph es) ∧
    (collisionSystem (collisionWorld 10)).nextState = some AppState.GameOver ∧
    (collisionSystem (collisionWorld 50)).nextState = none := by
  refine ⟨?_, ?_, ?_, ?_, ?_⟩
  · intro ac ah bc bh
    simp only [aabbIntersects, Bool.and_eq_true, decide_eq_true_eq, abs_sub_le_iff,
      ge_iff_le, and_assoc]
    constructor <;> rintro ⟨h1, h2, h3, h4⟩ <;> refine ⟨?_, ?_, ?_, ?_⟩ <;> linarith
  · intro pc ph es
    induction es with
    | nil => rfl
    | cons e rest ih =>
      cases hp : e.isPipe with
      | false => simp [collisionScan, pipeHit, hp, ih]
      | true =>
        cases ht : e.transform with
        | none => simp [collisionScan, pipeHit, hp, ht, ih]
        | some t =>
          cases hc : e.collider with
          | none => simp [collisionScan, pipeHit, hp, ht, hc, ih]
          | some c =>
            by_cases hab : aabbIntersects pc ph t c.half_size = true
            · simp [collisionScan, pipeHit, hp, ht, hc, hab]
            · simp [collisionScan, pipeHit, hp, ht, hc, hab, ih]
  · intro pc ph es tail hfound
    induction es with
    | nil => simp [collisionScan] at hfound
    | cons e rest ih =>
      cases hp : e.isPipe with
      | false =>
        simp only [collisionScan, hp] at hfound ⊢
        exact ih hfound
      | true =>
        cases ht : e.transform with
        | none =>
          simp only [collisionScan, hp, ht] at hfound ⊢
          exact ih hfound
        | some t =>
          cases hc : e.collider with
          | none =>
            simp only [collisionScan, hp, ht, hc] at hfound ⊢
            exact ih hfound
          | some c =>
            by_cases hab : aabbIntersects pc ph t c.half_size = true
            · simp [List.cons_append, collisionScan, hp, ht, hc, hab]
            · simp only [List.cons_append, collisionScan, hp, ht, hc, hab, if_false,
                Bool.false_eq_true] at hfound ⊢
              rw [List.append_eq, ih (by simpa using hfound)]
  · norm_num [collisionSystem, collisionWorld, collisionScan, aabbIntersects]
  · norm_num [collisionSystem, collisionWorld, collisionScan, aabbIntersects]

/-- C1 witness: the early stop property of the obstacle scan applied at a
concrete input, an actor box at the origin and the colliding obstacle of
the first spec example followed by a further obstacle. -/
theorem claim1_collision_witness :
    (collisionScan ⟨0, 0⟩ ⟨16, 16⟩ (collisionWorld 10).entities).1 = true ∧
    collisionScan ⟨0, 0⟩ ⟨16, 16⟩ ((collisionWorld 10).entities ++ [lifeEntity 1]) =
      collisionScan ⟨0, 0⟩ ⟨16, 16⟩ (collisionWorld 10).entities := by
  have h : (collisionScan ⟨0, 0⟩ ⟨16, 16⟩ (collisionWorld 10).entities).1 = true := by
    norm_num [collisionWorld, collisionScan, aabbIntersects]
  exact ⟨h, claim1_collision.2.2.1 ⟨0, 0⟩ ⟨16, 16⟩ _ [lifeEntity 1] h⟩

/-- C2 counterexample: the systems of one Playing tick are registered as an
unchained tuple with no ordering constraints, so the schedule in which
score_system runs before move_system is an execution order the scheduler
may choose, refuting the claim that scoring always runs after position
integration within a tick. -/
theorem claim2_counterexample :
    allowedPlayingSchedule swappedSchedule ∧
    sysIdx SystemId.scoreSystem swappedSchedule <
      sysIdx SystemId.moveSystem swappedSchedule := by
  refine ⟨⟨by decide, ?_⟩, by decide⟩
  intro c hc
  simp [playingOrderingConstraints] at hc

/-- C2 (amended): all the simulation systems named by the claim are
registered to run each Update tick while the phase is Playing, but the
tuple passed to add_systems is not chained and declares no ordering
constraints, so every permutation of the registered systems is an allowed
execution order for a tick and no fixed intra tick order is guaranteed. -/
theorem claim2_schedule :
    (SystemId.playerInputSystem ∈ playingUpdateSystems ∧
     SystemId.gravitySystem ∈ playingUpdateSystems ∧
     SystemId.moveSystem ∈ playingUpdateSystems ∧
     SystemId.pipeSpawnSystem ∈ playingUpdateSystems ∧
     SystemId.lifetimeSystem ∈ playingUpdateSystems ∧
     SystemId.collisionSystem ∈ playingUpdateSystems ∧
     SystemId.boundaryCollisionSystem ∈ playingUpdateSystems ∧
     SystemId.scoreSystem ∈ playingUpdateSystems) ∧
    (∀ s : List SystemId, s.Perm playingUpdateSystems → allowedPlayingSchedule s) := by
  refine ⟨by decide, fun s hs => ⟨hs, ?_⟩⟩
  intro c hc
  simp [playingOrderingConstraints] at hc

/-- C2 witness: the amended theorem applied to the registered list itself,
which is a permutation of itself. -/
theorem claim2_schedule_witness : allowedPlayingSchedule playingUpdateSystems :=
  claim2_schedule.2 playingUpdateSystems (List.Perm.refl _)

theorem scoreStep_eq (px : ℚ) (es : List Entity) :
    scoreStep px es = (es.map (passUpdate px), ((es.filter (newlyPassed px)).length : ℤ)) := by
  induction es with
  | nil => rfl
  | cons e rest ih =>
    cases hp : e.isPipe with
    | false => simp [scoreStep, passUpdate, newlyPassed, hp, ih, List.filter_cons]
    | true =>
      cases ht : e.transform with
      | none => simp [scoreStep, passUpdate, newlyPassed, hp, ht, ih, List.filter_cons]
      | some t =>
        cases hsc : e.scoreable with
        | none => simp [scoreStep, passUpdate, newlyPassed, hp, ht, hsc, ih, List.filter_cons]
        | some sc =>
          by_cases hq : (!sc.passed && decide (px > t.x)) = true
          · simp [scoreStep, passUpdate, newlyPassed, hp, ht, hsc, hq, ih, List.filter_cons]
          · simp [scoreStep, passUpdate, newlyPassed, hp, ht, hsc, hq, ih, List.filter_cons]

theorem passUpdate_isPlayer (px : ℚ) (e : Entity) : (passUpdate px e).isPlayer = e.isPlayer := by
  unfold passUpdate
  split <;> try rfl
  split <;> try rfl
  split <;> rfl

theorem passUpdate_transform (px : ℚ) (e : Entity) : (passUpdate px e).transform = e.transform := by
  unfold passUpdate
  split <;> try rfl
  split <;> try rfl
  split <;> rfl

theorem newlyPassed_passUpdate (px : ℚ) (e : Entity) : newlyPassed px (passUpdate px e) = false := by
  cases hp : e.isPipe with
  | false => simp [passUpdate, newlyPassed, hp]
  | true =>
    cases ht : e.transform with
    | none => simp [passUpdate, newlyPassed, hp, ht]
    | some t =>
      cases hsc : e.scoreable with
      | none => simp [passUpdate, newlyPassed, hp, ht, hsc]
      | some sc =>
        by_cases hq : (!sc.passed && decide (px > t.x)) = true
        · simp [passUpdate, newlyPassed, hp, ht, hsc, hq]
        · simp [passUpdate, newlyPassed, hp, ht, hsc, hq]

theorem passUpdate_idem (px : ℚ) (e : Entity) :
    passUpdate px (passUpdate px e) = passUpdate px e := by
  cases hp : e.isPipe with
  | false => simp [passUpdate, hp]
  | true =>
    cases ht : e.transform with
    | none => simp [passUpdate, hp, ht]
    | some t =>
      cases hsc : e.scoreable with
      | none => simp [passUpdate, hp, ht, hsc]
      | some sc =>
        by_cases hq : (!sc.passed && decide (px > t.x)) = true
        · simp [passUpdate, hp, ht, hsc, hq]
        · simp [passUpdate, hp, ht, hsc, hq]

theorem passUpdate_true (px : ℚ) (e : Entity) (h : e.scoreable = some ⟨true⟩) :
    (passUpdate px e).scoreable = some ⟨true⟩ := by
  cases hp : e.isPipe with
  | false => simp [passUpdate, hp, h]
  | true =>
    cases ht : e.transform with
    | none => simp [passUpdate, hp, ht, h]
    | some t => simp [passUpdate, hp, ht, h]

theorem filter_players_map_passUpdate (px : ℚ) (l : List Entity) :
    (l.map (passUpdate px)).filter (fun e => e.isPlayer && e.transform.isSome) =
      (l.filter (fun e => e.isPlayer && e.transform.isSome)).map (passUpdate px) := by
  induction l with
  | nil => rfl
  | cons e rest ih =>
    simp only [List.map_cons, List.filter_cons, passUpdate_isPlayer, passUpdate_transform]
    by_cases h : (e.isPlayer && e.transform.isSome) = true
    · simp [h, ih]
    · simp [h, ih]



theorem scoreSystem_eq (w : World) (pt : Vec2) (h : getSinglePlayerTransform w = some pt) :
    scoreSystem w =
      { w with entities := w.entities.map (passUpdate pt.x),
               score := w.score + ((w.entities.filter (newlyPassed pt.x)).length : ℤ) } := by
  unfold scoreSystem
  rw [h]
  show (let r := scoreStep pt.x w.entities;
    ({ entities := r.1, score := w.score + r.2, gravity := w.gravity,
       nextState := w.nextState, nextId := w.nextId } : World)) = _
  rw [scoreStep_eq]

theorem getSingle_after_score (w : World) (pt : Vec2)
    (h : getSinglePlayerTransform w = some pt) :
    getSinglePlayerTransform (scoreSystem w) = some pt := by
  rcases hl : w.entities.filter (fun e => e.isPlayer && e.transform.isSome) with _ | ⟨e, _ | ⟨e2, tl⟩⟩
  · unfold getSinglePlayerTransform at h
    rw [hl] at h
    simp at h
  · have he : e.transform = some pt := by
      unfold getSinglePlayerTransform at h
      rw [hl] at h
      exact h
    have hfe : (scoreSystem w).entities.filter (fun e => e.isPlayer && e.transform.isSome) =
        [passUpdate pt.x e] := by
      rw [scoreSystem_eq w pt h]
      show (w.entities.map (passUpdate pt.x)).filter (fun e => e.isPlayer && e.transform.isSome) =
        [passUpdate pt.x e]
      rw [filter_players_map_passUpdate, hl]
      rfl
    unfold getSinglePlayerTransform
    rw [hfe]
    show (passUpdate pt.x e).transform = some pt
    rw [passUpdate_transform]
    exact he
  · unfold getSinglePlayerTransform at h
    rw [hl] at h
    simp at h

theorem map_passUpdate_idem (px : ℚ) (l : List Entity) :
    (l.map (passUpdate px)).map (passUpdate px) = l.map (passUpdate px) := by
  induction l with
  | nil => rfl
  | cons e rest ih => simp [passUpdate_idem, ih]

theorem filter_newlyPassed_map (px : ℚ) (l : List Entity) :
    (l.map (passUpdate px)).filter (newlyPassed px) = [] := by
  induction l with
  | nil => rfl
  | cons e rest ih => simp [List.filter_cons, newlyPassed_passUpdate, ih]

theorem scoreSystem_idem (w : World) (pt : Vec2) (h : getSinglePlayerTransform w = some pt) :
    scoreSystem (scoreSystem w) = scoreSystem w := by
  have h2 := getSingle_after_score w pt h
  rw [scoreSystem_eq _ _ h2, scoreSystem_eq _ _ h]
  simp [map_passUpdate_idem, filter_newlyPassed_map, -List.map_map]

/-- C3: whenever exactly one player with a position exists, the scoring
pass adds to the Score exactly the number of Scoreable obstacles whose
flag is still false and whose x position is strictly below the player x;
each such obstacle has its passed flag set to true; a flag that is already
true stays true (never true to false); running the pass a second time on
the resulting world changes nothing, so an obstacle increments the score
at most once; and each spawned pipe pair consists of two obstacles of
which exactly one carries a Scoreable. -/
theorem claim3_scoring (w : World) (pt : Vec2)
    (h : getSinglePlayerTransform w = some pt) :
    ((scoreSystem w).score =
        w.score + ((w.entities.filter (newlyPassed pt.x)).length : ℤ)) ∧
    ((scoreSystem w).entities = w.entities.map (passUpdate pt.x)) ∧
    (∀ e : Entity, newlyPassed pt.x e = true →
        (passUpdate pt.x e).scoreable = some ⟨true⟩) ∧
    (∀ e : Entity, e.scoreable = some ⟨true⟩ →
        (passUpdate pt.x e).scoreable = some ⟨true⟩) ∧
    (scoreSystem (scoreSystem w) = scoreSystem w) ∧
    (∀ cy : ℚ, ((spawnPipes cy w).entities.drop w.entities.length).length = 2 ∧
        (((spawnPipes cy w).entities.drop w.entities.length).filter
            (fun e => e.scoreable.isSome)).length = 1) := by
  refine ⟨?_, ?_, ?_, ?_, scoreSystem_idem w pt h, ?_⟩
  · rw [scoreSystem_eq w pt h]
  · rw [scoreSystem_eq w pt h]
  · intro e hne
    cases hp : e.isPipe with
    | false => simp [newlyPassed, hp] at hne
    | true =>
      cases ht : e.transform with
      | none => simp [newlyPassed, hp, ht] at hne
      | some t =>
        cases hsc : e.scoreable with
        | none => simp [newlyPassed, hp, ht, hsc] at hne
        | some sc =>
          simp only [newlyPassed, hp, ht, hsc, Bool.true_and, Bool.and_eq_true,
            Bool.not_eq_true, decide_eq_true_eq] at hne
          simp [passUpdate, hp, ht, hsc, hne.1, hne.2]
  · exact fun e he => passUpdate_true pt.x e he
  · intro cy
    constructor
    · simp [spawnPipes, List.drop_left]
    · simp [spawnPipes, List.drop_left, List.filter_cons]

/-- C3 witness: the scoring theorem applied to the concrete world of the
spec example, a player at x = 0 and a Scoreable obstacle at x = -10. -/
theorem claim3_scoring_witness :
    (scoreSystem scoreWorld).score =
      scoreWorld.score + ((scoreWorld.entities.filter (newlyPassed 0)).length : ℤ) ∧
    scoreSystem (scoreSystem scoreWorld) = scoreSystem scoreWorld := by
  have h : getSinglePlayerTransform scoreWorld = some ⟨0, 0⟩ := by decide
  have hc := claim3_scoring scoreWorld ⟨0, 0⟩ h
  exact ⟨hc.1, hc.2.2.2.2.1⟩

theorem filter_kept_none (p : Entity → Bool) (l : List Entity)
    (hp : ∀ e, p e = true → (e.isPlayer || e.isPipe || e.isScoreText) = true) :
    (l.filter (fun e => !(e.isPlayer || e.isPipe || e.isScoreText))).filter p = [] := by
  induction l with
  | nil => rfl
  | cons e rest ih =>
    by_cases hk : (e.isPlayer || e.isPipe || e.isScoreText) = true
    · simp only [List.filter_cons, hk, Bool.not_true, Bool.false_eq_true, if_false]
      exact ih
    · have hkf : (e.isPlayer || e.isPipe || e.isScoreText) = false := by
        cases hx : (e.isPlayer || e.isPipe || e.isScoreText) with
        | false => rfl
        | true => exact absurd hx hk
      have hpe : p e = false := by
        cases hpx : p e with
        | false => rfl
        | true => exact absurd (hp e hpx) hk
      simp only [List.filter_cons, hkf, Bool.not_false, if_true, hpe, Bool.false_eq_true,
        if_false]
      exact ih

theorem restartGame_players (w : World) :
    (restartGame w).entities.filter (fun e => e.isPlayer) =
      [restartPlayerEntity (w.nextId + 2)] := by
  show ((w.entities.filter (fun e => !(e.isPlayer || e.isPipe || e.isScoreText))) ++
      [restartScoreTextEntity w.nextId, restartBackgroundEntity (w.nextId + 1),
       restartPlayerEntity (w.nextId + 2)]).filter (fun e => e.isPlayer) =
    [restartPlayerEntity (w.nextId + 2)]
  rw [List.filter_append, filter_kept_none _ _ (fun e he => by simp [he])]
  simp [restartScoreTextEntity, restartBackgroundEntity, restartPlayerEntity, List.filter_cons]

theorem restartGame_pipes (w : World) :
    (restartGame w).entities.filter (fun e => e.isPipe) = [] := by
  show ((w.entities.filter (fun e => !(e.isPlayer || e.isPipe || e.isScoreText))) ++
      [restartScoreTextEntity w.nextId, restartBackgroundEntity (w.nextId + 1),
       restartPlayerEntity (w.nextId + 2)]).filter (fun e => e.isPipe) = []
  rw [List.filter_append, filter_kept_none _ _ (fun e he => by simp [he])]
  simp [restartScoreTextEntity, restartBackgroundEntity, restartPlayerEntity, List.filter_cons]

theorem restartGame_scoreTexts (w : World) :
    (restartGame w).entities.filter (fun e => e.isScoreText) =
      [restartScoreTextEntity w.nextId] := by
  show ((w.entities.filter (fun e => !(e.isPlayer || e.isPipe || e.isScoreText))) ++
      [restartScoreTextEntity w.nextId, restartBackgroundEntity (w.nextId + 1),
       restartPlayerEntity (w.nextId + 2)]).filter (fun e => e.isScoreText) =
    [restartScoreTextEntity w.nextId]
  rw [List.filter_append, filter_kept_none _ _ (fun e he => by simp [he])]
  simp [restartScoreTextEntity, restartBackgroundEntity, restartPlayerEntity, List.filter_cons]

/-- C4: for every world, the restart procedure resets the Score to 0,
leaves exactly one player entity, the freshly spawned one at the origin
with zero velocity and the standard (16, 16) collider, destroys every
obstacle, and replaces the score display entities with the single fresh
one. -/
theorem claim4_restart (w : World) :
    (restartGame w).score = 0 ∧
    (restartGame w).entities.filter (fun e => e.isPlayer) =
      [restartPlayerEntity (w.nextId + 2)] ∧
    (restartGame w).entities.filter (fun e => e.isPipe) = [] ∧
    (restartGame w).entities.filter (fun e => e.isScoreText) =
      [restartScoreTextEntity w.nextId] ∧
    (restartPlayerEntity (w.nextId + 2)).transform = some ⟨0, 0⟩ ∧
    (restartPlayerEntity (w.nextId + 2)).velocity = some ⟨0, 0⟩ ∧
    (restartPlayerEntity (w.nextId + 2)).collider = some ⟨⟨16, 16⟩⟩ :=
  ⟨rfl, restartGame_players w, restartGame_pipes w, restartGame_scoreTexts w, rfl, rfl, rfl⟩

/-- C10: entering Playing runs the same full reset procedure restart_game
whatever the source state, Menu or GameOver; after it the Score is 0 and
exactly one fresh player exists at the origin, all obstacles and old score
text entities are gone; in particular the world after process startup
already holds one player, and the first Menu to Playing transition still
ends with exactly one player and Score 0. -/
theorem claim10_enter_playing (s : AppState) (w : World) :
    enterState s AppState.Playing w = restartGame w ∧
    (enterState s AppState.Playing w).score = 0 ∧
    (enterState s AppState.Playing w).entities.filter (fun e => e.isPlayer) =
      [restartPlayerEntity (w.nextId + 2)] ∧
    (enterState s AppState.Playing w).entities.filter (fun e => e.isPipe) = [] ∧
    (enterState s AppState.Playing w).entities.filter (fun e => e.isScoreText) =
      [restartScoreTextEntity w.nextId] ∧
    (startupWorld.entities.filter (fun e => e.isPlayer)).length = 1 ∧
    ((enterState AppState.Menu AppState.Playing startupWorld).entities.filter
        (fun e => e.isPlayer)).length = 1 ∧
    (enterState AppState.Menu AppState.Playing startupWorld).score = 0 := by
  refine ⟨rfl, rfl, restartGame_players w, restartGame_pipes w, restartGame_scoreTexts w,
    by decide, ?_, rfl⟩
  rw [show enterState AppState.Menu AppState.Playing startupWorld = restartGame startupWorld
    from rfl]
  rw [restartGame_players startupWorld]
  rfl

/-- C5: with the gravity value inserted by main, the gravity pass changes
the vertical velocity of a player entity by exactly gravity * dt, which is
a strict decrease whenever dt > 0 since the gravity constant is negative,
and the flap input pass overwrites the vertical velocity with exactly the
flap constant 150 regardless of the prior value, which is positive. -/
theorem claim5_velocity (w : World) (dt : ℚ) (e : Entity) (v : Velocity)
    (hw : w.gravity = mainGravity) (hdt : 0 < dt)
    (he : e ∈ w.entities) (hp : e.isPlayer = true) (hv : e.velocity = some v) :
    (({ e with velocity := some { v with dy := v.dy + w.gravity * dt } } : Entity) ∈
        (gravitySystem dt w).entities ∧
      v.dy + w.gravity * dt < v.dy) ∧
    (({ e with velocity := some { v with dy := flapSpeed } } : Entity) ∈
        (playerInputSystem true w).entities) ∧
    0 < flapSpeed := by
  obtain ⟨eid, ip, ipi, ist, tr, ve, co, esc, lt⟩ := e
  simp only at hp hv
  subst hp
  subst hv
  refine ⟨⟨?_, ?_⟩, ?_, by norm_num [flapSpeed]⟩
  · exact List.mem_map_of_mem (fun e : Entity =>
      if e.isPlayer then
        match e.velocity with
        | some v => { e with velocity := some { v with dy := v.dy + w.gravity * dt } }
        | none => e
      else e) he
  · rw [hw]
    have h350 : (0 : ℚ) < 350 * dt := mul_pos (by norm_num) hdt
    have hmg : mainGravity = -350 := rfl
    rw [hmg]
    linarith
  · exact List.mem_map_of_mem (fun e : Entity =>
      if e.isPlayer then
        match e.velocity with
        | some v => { e with velocity := some { v with dy := flapSpeed } }
        | none => e
      else e) he

/-- C5 witness: the velocity theorem applied to the player entity of the
startup world with dt = 1. -/
theorem claim5_velocity_witness :
    (({ setupPlayerEntity with
          velocity := some { (⟨0, 0⟩ : Velocity) with
            dy := (⟨0, 0⟩ : Velocity).dy + startupWorld.gravity * 1 } } : Entity) ∈
        (gravitySystem 1 startupWorld).entities ∧
      (⟨0, 0⟩ : Velocity).dy + startupWorld.gravity * 1 < (⟨0, 0⟩ : Velocity).dy) ∧
    (({ setupPlayerEntity with
          velocity := some { (⟨0, 0⟩ : Velocity) with dy := flapSpeed } } : Entity) ∈
        (playerInputSystem true startupWorld).entities) ∧
    0 < flapSpeed :=
  claim5_velocity startupWorld 1 setupPlayerEntity ⟨0, 0⟩ rfl (by norm_num)
    (by decide) rfl rfl

theorem lifetimeSystem_entities_nil (dt : ℚ) (w : World) (h : w.entities = []) :
    (lifetimeSystem dt w).entities = [] := by
  simp [lifetimeSystem, h]

theorem runLifetime_entities_nil (dts : List ℚ) (w : World) (h : w.entities = []) :
    (runLifetime dts w).entities = [] := by
  induction dts generalizing w with
  | nil => exact h
  | cons d rest ih =>
    simp only [runLifetime, List.foldl_cons]
    exact ih _ (lifetimeSystem_entities_nil d w h)

theorem lifetimeSystem_lifeWorld (dt l : ℚ) :
    lifetimeSystem dt (lifeWorld l) =
      if 0 < l - dt then lifeWorld (l - dt) else { lifeWorld l with entities := [] } := by
  by_cases h : 0 < l - dt
  · simp [lifetimeSystem, lifeWorld, lifeEntity, h]
  · simp [lifetimeSystem, lifeWorld, lifeEntity, h]

theorem runLifetime_lifeWorld (l : ℚ) (dts : List ℚ) :
    (runLifetime dts (lifeWorld l)).entities =
      if ∀ k < dts.length, 0 < l - ((dts.take (k + 1)).sum) then
        [lifeEntity (l - dts.sum)] else [] := by
  induction dts generalizing l with
  | nil => simp [runLifetime, lifeWorld]
  | cons d rest ih =>
    simp only [runLifetime, List.foldl_cons]
    by_cases h : 0 < l - d
    · have hstep : lifetimeSystem d (lifeWorld l) = lifeWorld (l - d) := by
        rw [lifetimeSystem_lifeWorld, if_pos h]
      have hiff : (∀ k < (d :: rest).length, 0 < l - (((d :: rest).take (k + 1)).sum)) ↔
          (∀ k < rest.length, 0 < (l - d) - ((rest.take (k + 1)).sum)) := by
        constructor
        · intro hall k hk
          have h2 := hall (k + 1) (by simpa using Nat.succ_lt_succ hk)
          simp only [List.take_succ_cons, List.sum_cons] at h2
          linarith
        · intro hall k hk
          cases k with
          | zero => simpa using h
          | succ j =>
            have hj : j < rest.length := by
              simpa using Nat.lt_of_succ_lt_succ hk
            have h2 := hall j hj
            simp only [List.take_succ_cons, List.sum_cons]
            linarith
      show (runLifetime rest (lifetimeSystem d (lifeWorld l))).entities = _
      rw [hstep, ih (l - d)]
      rcases Classical.em (∀ k < rest.length, 0 < (l - d) - ((rest.take (k + 1)).sum))
        with hc | hc
      · rw [if_pos hc, if_pos (hiff.mpr hc)]
        have hval : l - (d :: rest).sum = l - d - rest.sum := by
          rw [List.sum_cons]
          ring
        rw [hval]
      · rw [if_neg hc, if_neg (fun hx => hc (hiff.mp hx))]
    · have hstep : lifetimeSystem d (lifeWorld l) = { lifeWorld l with entities := [] } := by
        rw [lifetimeSystem_lifeWorld, if_neg h]
      have hcf : ¬ (∀ k < (d :: rest).length, 0 < l - (((d :: rest).take (k + 1)).sum)) := by
        intro hall
        have h0 := hall 0 (by simp)
        simp at h0
        exact h (by linarith)
      show (runLifetime rest (lifetimeSystem d (lifeWorld l))).entities = _
      rw [hstep, runLifetime_entities_nil rest _ rfl, if_neg hcf]

/-- C6: iterating the lifetime pass over a world holding one entity with
a Lifetime, the entity is present after a sequence of ticks exactly when
every prefix of the tick deltas leaves a strictly positive remaining
lifetime, and while present its lifetime equals the initial value minus
the elapsed time, so the entity is destroyed exactly on the tick in which
the remaining lifetime first reaches zero or below; with lifetime 1/10 and
deltas [1/20, 1/20, 1/20] the entity survives the first tick and is gone
after the second, hence also after the third. -/
theorem claim6_lifetime :
    (∀ l : ℚ, ∀ dts : List ℚ,
      (runLifetime dts (lifeWorld l)).entities =
        if ∀ k < dts.length, 0 < l - ((dts.take (k + 1)).sum) then
          [lifeEntity (l - dts.sum)] else []) ∧
    (runLifetime [1/20] (lifeWorld (1/10))).entities = [lifeEntity (1/20)] ∧
    (runLifetime [1/20, 1/20] (lifeWorld (1/10))).entities = [] ∧
    (runLifetime [1/20, 1/20, 1/20] (lifeWorld (1/10))).entities = [] := by
  refine ⟨runLifetime_lifeWorld, ?_, ?_, ?_⟩
  · rw [runLifetime_lifeWorld, if_pos ?_]
    · have : (1:ℚ)/10 - ([1/20] : List ℚ).sum = 1/20 := by
        norm_num
      rw [this]
    · intro k hk
      simp only [List.length_cons, List.length_nil] at hk
      have hk0 : k = 0 := Nat.lt_one_iff.mp hk
      subst hk0
      norm_num
  · rw [runLifetime_lifeWorld, if_neg ?_]
    intro hall
    have h1 := hall 1 (by norm_num)
    norm_num at h1
  · rw [runLifetime_lifeWorld, if_neg ?_]
    intro hall
    have h1 := hall 1 (by norm_num)
    norm_num at h1

/-- C7: the spawner creates at most one obstacle pair (two entities) per
tick in every timer state and for every tick delta, even when the delta
covers several full periods; the local timer is lazily replaced by the
2 second repeating timer on its first tick; concretely a first tick of
dt = 5 completes two full periods of the freshly initialized timer yet
only one pair of obstacles is spawned. -/
theorem claim7_spawner :
    (∀ cy dt : ℚ, ∀ t : Timer, ∀ w : World,
        ((pipeSpawnSystem cy dt t w).2).entities.length ≤ w.entities.length + 2) ∧
    pipeSpawnTimerInit Timer.localDefault = ⟨0, 2⟩ ∧
    ((pipeSpawnTimerInit Timer.localDefault).tickRepeating 5).2 = 2 ∧
    ((pipeSpawnSystem 0 5 Timer.localDefault initialWorld).2).entities.length = 2 := by
  refine ⟨?_, rfl, ?_, ?_⟩
  · intro cy dt t w
    show (if 0 < ((pipeSpawnTimerInit t).tickRepeating dt).2
        then (((pipeSpawnTimerInit t).tickRepeating dt).1, spawnPipes cy w)
        else (((pipeSpawnTimerInit t).tickRepeating dt).1, w)).2.entities.length ≤
      w.entities.length + 2
    by_cases hf : 0 < ((pipeSpawnTimerInit t).tickRepeating dt).2
    · rw [if_pos hf]
      show (spawnPipes cy w).entities.length ≤ w.entities.length + 2
      simp [spawnPipes]
    · rw [if_neg hf]
      show w.entities.length ≤ w.entities.length + 2
      omega
  · norm_num [Timer.tickRepeating, pipeSpawnTimerInit, Timer.localDefault]
    rfl
  · norm_num [pipeSpawnSystem, pipeSpawnTimerInit, Timer.localDefault, Timer.tickRepeating,
      spawnPipes, initialWorld]

/-- C8: whenever the player query succeeds, the bounds pass requests the
GameOver transition exactly when the top of the player box strictly
exceeds the fixed boundary 300 or its bottom is strictly below -300, and
otherwise leaves the pending transition unchanged; a player at y = 305
with half extent 16 triggers the request and one at y = 280 does not. -/
theorem claim8_bounds (w : World) (p : Entity) (t : Vec2) (c : Collider)
    (hq : w.entities.filter (fun e => e.isPlayer && e.transform.isSome && e.collider.isSome) = [p])
    (ht : p.transform = some t) (hc : p.collider = some c) :
    ((boundaryCollisionSystem w).nextState =
      if 300 < t.y + c.half_size.y ∨ t.y - c.half_size.y < -300 then some AppState.GameOver
      else w.nextState) ∧
    (boundaryCollisionSystem (boundsWorld 305)).nextState = some AppState.GameOver ∧
    (boundaryCollisionSystem (boundsWorld 280)).nextState = none := by
  refine ⟨?_, ?_, ?_⟩
  · unfold boundaryCollisionSystem
    rw [hq]
    show ((match p.transform, p.collider with
      | some t, some c =>
        if (decide (t.y + c.half_size.y > 300) || decide (t.y - c.half_size.y < -300)) = true
        then { w with nextState := some AppState.GameOver } else w
      | _, _ => w) : World).nextState = _
    rw [ht, hc]
    by_cases hb : 300 < t.y + c.half_size.y ∨ t.y - c.half_size.y < -300
    · rw [if_pos hb]
      have hdec : (decide (t.y + c.half_size.y > 300) || decide (t.y - c.half_size.y < -300)) = true := by
        rcases hb with hb | hb
        · simp [hb]
        · simp [hb]
      simp only [hdec, if_true]
    · rw [if_neg hb]
      push_neg at hb
      have hdec : (decide (t.y + c.half_size.y > 300) || decide (t.y - c.half_size.y < -300)) = false := by
        simp only [Bool.or_eq_false_iff, decide_eq_false_iff_not]
        constructor
        · exact not_lt.mpr hb.1
        · exact not_lt.mpr hb.2
      simp only [hdec, Bool.false_eq_true, if_false]
  · norm_num [boundaryCollisionSystem, boundsWorld]
  · norm_num [boundaryCollisionSystem, boundsWorld]

/-- C8 witness: the bounds theorem applied to the concrete world with the
player at y = 305. -/
theorem claim8_bounds_witness :
    ((boundaryCollisionSystem (boundsWorld 305)).nextState =
      if 300 < (305:ℚ) + (16:ℚ) ∨ (305:ℚ) - (16:ℚ) < -300 then some AppState.GameOver
      else (boundsWorld 305).nextState) :=
  (claim8_bounds (boundsWorld 305)
    { id := 0, isPlayer := true, transform := some ⟨0, 305⟩, collider := some ⟨⟨16, 16⟩⟩ }
    ⟨0, 305⟩ ⟨⟨16, 16⟩⟩ (by decide) rfl rfl).1

theorem filter_nil_of_imp (l : List Entity) (p q : Entity → Bool)
    (hpq : ∀ e, q e = true → p e = true) (h : l.filter p = []) : l.filter q = [] := by
  induction l with
  | nil => rfl
  | cons e rest ih =>
    rw [List.filter_cons] at h ⊢
    by_cases hqe : q e = true
    · have hpe := hpq e hqe
      rw [if_pos hpe] at h
      exact absurd h (by simp)
    · have hqf : q e = false := by
        cases hx : q e with
        | false => rfl
        | true => exact absurd hx hqe
      rw [hqf]
      simp only [Bool.false_eq_true, if_false]
      by_cases hpe : p e = true
      · rw [if_pos hpe] at h
        exact absurd h (by simp)
      · have hpf : p e = false := by
          cases hx : p e with
          | false => rfl
          | true => exact absurd hx hpe
        rw [hpf] at h
        simp only [Bool.false_eq_true, if_false] at h
        exact ih h

/-- C9: in any world without a player entity, the collision pass, the
bounds pass and the scoring pass all leave the world exactly unchanged:
no GameOver request is issued, the score does not move and no Scoreable
flag changes. -/
theorem claim9_no_actor (w : World)
    (h : w.entities.filter (fun e => e.isPlayer) = []) :
    collisionSystem w = w ∧ boundaryCollisionSystem w = w ∧ scoreSystem w = w := by
  have hcol : w.entities.filter
      (fun e => e.isPlayer && !e.isPipe && e.transform.isSome) = [] :=
    filter_nil_of_imp _ _ _ (fun e he => by
      simp only [Bool.and_eq_true] at he
      exact he.1.1) h
  have hbnd : w.entities.filter
      (fun e => e.isPlayer && e.transform.isSome && e.collider.isSome) = [] :=
    filter_nil_of_imp _ _ _ (fun e he => by
      simp only [Bool.and_eq_true] at he
      exact he.1.1) h
  have hsc : w.entities.filter (fun e => e.isPlayer && e.transform.isSome) = [] :=
    filter_nil_of_imp _ _ _ (fun e he => by
      simp only [Bool.and_eq_true] at he
      exact he.1) h
  refine ⟨?_, ?_, ?_⟩
  · unfold collisionSystem
    rw [hcol]
  · unfold boundaryCollisionSystem
    rw [hbnd]
  · unfold scoreSystem getSinglePlayerTransform
    rw [hsc]

/-- C9 witness: the no actor theorem applied to a world holding only a
lifetime entity. -/
theorem claim9_no_actor_witness :
    collisionSystem (lifeWorld 5) = lifeWorld 5 ∧
    boundaryCollisionSystem (lifeWorld 5) = lifeWorld 5 ∧
    scoreSystem (lifeWorld 5) = lifeWorld 5 :=
  claim9_no_actor (lifeWorld 5) (by decide)
